import Mathlib

/-!
# Verification of the taoanhaov automation core

A shallow embedding of the automation workflow executor
(`src/automation/service.py`) and of the legacy install script
(`luong1_download.py`).  Device-bridge commands are modelled symbolically
(an `AdbCommand` trace plus a `CmdResult` outcome per invocation), Python
exceptions are modelled with `Except`, and the database row mutated by the
executor is modelled as an explicit `AutomationWorkflow` record threaded
through `executeWorkflow`.

String scanning is embedded at the character-list level: the UI-dump probe
in the source is plain Python substring containment (`pat in content`) over
the lowercased dump text, which `containsSub` reproduces.  The source only
ever matches ASCII patterns, so `Char.toLower` is an adequate embedding of
`str.lower`.
-/

namespace Taoanhaov

/-! ## Character-level string primitives (embedding Python `str` operations) -/

/-- `Char.toLower` mapped over a character list: embeds Python `str.lower()`
for the ASCII text the source matches against. -/
def charsLower (cs : List Char) : List Char := cs.map Char.toLower

/-- Does `p` occur at the start of `s`?  (Helper for substring containment.) -/
def charsStartWith : List Char → List Char → Bool
  | [], _ => true
  | _ :: _, [] => false
  | p :: ps, c :: cs => p == c && charsStartWith ps cs

/-- Does pattern `p` occur anywhere inside `s`? -/
def charsContain (p : List Char) (s : List Char) : Bool :=
  match s with
  | [] => charsStartWith p []
  | _ :: rest => charsStartWith p s || charsContain p rest

/-- Python's `pat in s` substring test. -/
def containsSub (s pat : String) : Bool := charsContain pat.data s.data

/-- Python's `s.lower()`. -/
def lowerStr (s : String) : String := ⟨charsLower s.data⟩

/-- Split a character list at newline characters (Python `split('\n')`). -/
def splitLines : List Char → List (List Char)
  | [] => [[]]
  | c :: rest =>
    let r := splitLines rest
    if c == '\n' then [] :: r
    else
      match r with
      | [] => [[c]]
      | h :: t => (c :: h) :: t

/-- Python `str.strip()` on a character list. -/
def trimChars (cs : List Char) : List Char :=
  ((cs.dropWhile Char.isWhitespace).reverse.dropWhile Char.isWhitespace).reverse

/-! ## Data model (from `src/automation/schemas.py` and `src/models.py`) -/

/-- `WorkflowStatus` from `src/automation/schemas.py` lines 18-24.
Note: the enumeration has exactly these five members; there is no
timed-out member. -/
inductive WorkflowStatus where
  | pending
  | running
  | completed
  | failed
  | cancelled
deriving DecidableEq, Repr

/-- The `AutomationWorkflow` row fields the executor reads and writes
(`src/models.py` / `service.py`).  Timestamps are abstract ticks. -/
structure AutomationWorkflow where
  id : Nat
  workflowType : String
  status : WorkflowStatus
  startedAt : Option Nat
  completedAt : Option Nat
  errorMessage : Option String
deriving DecidableEq, Repr

/-- Exceptions raised inside the automation service, as the executor can
observe them (`src/automation/exceptions.py` plus Python built-ins). -/
inductive AutomationError where
  | workflowAlreadyRunning (msg : String)
  | emulatorNotAvailable (msg : String)
  | valueError (msg : String)
  | nameError (msg : String)
  | screenshotCapture (msg : String)
  | timeoutExpired (msg : String)
  | dbError (msg : String)
deriving DecidableEq, Repr

/-- Python `str(e)` for the exceptions above: `AutomationBaseException.__str__`
prepends the error code in brackets (`exceptions.py` lines 22-25); built-in
exceptions render their message. -/
def AutomationError.pyStr : AutomationError → String
  | .workflowAlreadyRunning m => "[WORKFLOW_ALREADY_RUNNING] " ++ m
  | .emulatorNotAvailable m => "[EMULATOR_NOT_AVAILABLE] " ++ m
  | .valueError m => m
  | .nameError m => m
  | .screenshotCapture m => "[SCREENSHOT_CAPTURE_ERROR] " ++ m
  | .timeoutExpired m => m
  | .dbError m => m

/-! ## Device command driver model -/

/-- The adb invocations the automation code issues, recorded as a trace. -/
inductive AdbCommand where
  | version
  | devices
  | keyevent (code : Nat)
  | tap (x y : Nat)
  | inputText (s : String)
  | amStart (component : String)
  | amStartView (uri : String)
  | pmListPackages
  | rmFile (path : String)
  | uiDump (path : String)
  | pull (src dst : String)
  | screencap (path : String)
deriving DecidableEq, Repr

/-- Outcome of one `subprocess.run` call: either `TimeoutExpired` was raised,
or the process completed with an exit code, stdout and stderr. -/
inductive CmdResult where
  | timedOut
  | done (exitCode : Nat) (stdout : String) (stderr : String)
deriving DecidableEq, Repr

/-- `adb devices` output parsing from `_check_emulator_status`
(`service.py` lines 400-402): strip, split lines, drop the header line,
keep non-blank lines, take the tab-separated first field. -/
def parseDeviceLines (stdout : String) : List (List Char) :=
  (((splitLines (trimChars stdout.data)).drop 1).filter
    (fun l => !(trimChars l).isEmpty)).map
    (fun l => l.takeWhile (fun c => c != '\t'))

/-- `AutomationService._check_emulator_status` (`service.py` lines 386-412):
`.ok devices` models `{"available": True, "devices": devices}`, `.error msg`
models `{"available": False, "error": msg}`. -/
def checkEmulatorStatus : CmdResult → Except String (List (List Char))
  | .timedOut => .error "ADB command timeout"
  | .done rc out _ =>
    if rc != 0 then .error "ADB command failed"
    else
      let devices := parseDeviceLines out
      if devices.isEmpty then .error "No emulator devices found"
      else .ok devices

/-- `AutomationService._reset_to_home_screen` (`service.py` lines 414-428):
one `adb shell input keyevent 3`; `subprocess.run` is called without a
return-code check, so only `TimeoutExpired` raises (it is logged and
re-raised); a completed process is accepted whatever its exit code. -/
def resetToHomeScreen (r : CmdResult) : List AdbCommand × Except AutomationError Unit :=
  ([.keyevent 3],
    match r with
    | .timedOut => .error (.timeoutExpired "adb shell input keyevent 3 timed out")
    | .done _ _ _ => .ok ())

/-- `AutomationService._open_google_play_store` (`service.py` lines 430-444). -/
def openGooglePlayStore (r : CmdResult) : List AdbCommand × Except AutomationError Unit :=
  ([.amStart "com.android.vending/.AssetBrowserActivity"],
    match r with
    | .timedOut => .error (.timeoutExpired "adb shell am start play store timed out")
    | .done _ _ _ => .ok ())

/-- `AutomationService._search_lienquan_mobile` (`service.py` lines 446-478):
tap the search box at (1200, 200), type "lienquan", press enter (keyevent
66).  Exit codes are not checked; a timeout on any of the three commands
aborts the step (re-raised after logging). -/
def searchLienquanMobile (r1 r2 r3 : CmdResult) :
    List AdbCommand × Except AutomationError Unit :=
  match r1 with
  | .timedOut => ([.tap 1200 200], .error (.timeoutExpired "search tap timed out"))
  | .done _ _ _ =>
    match r2 with
    | .timedOut =>
      ([.tap 1200 200, .inputText "lienquan"],
        .error (.timeoutExpired "search text timed out"))
    | .done _ _ _ =>
      match r3 with
      | .timedOut =>
        ([.tap 1200 200, .inputText "lienquan", .keyevent 66],
          .error (.timeoutExpired "search enter timed out"))
      | .done _ _ _ =>
        ([.tap 1200 200, .inputText "lienquan", .keyevent 66], .ok ())

/-- `AutomationService._click_install_button` (`service.py` lines 480-494):
one tap at the fixed install-button coordinates (2117, 350); exit code not
checked, timeout re-raised. -/
def clickInstallButton (r : CmdResult) : List AdbCommand × Except AutomationError Unit :=
  ([.tap 2117 350],
    match r with
    | .timedOut => .error (.timeoutExpired "adb shell input tap 2117 350 timed out")
    | .done _ _ _ => .ok ())

/-! ## UI-probe installation detection -/

/-- On-device path of the UI dump used by `_check_app_installed`. -/
def uiDumpPath : String := "/sdcard/ui_dump.xml"

/-- Commands issued by one `_check_app_installed` call (`service.py` lines
525-547): remove the stale on-device dump, regenerate it, pull it to a
fresh temp file. -/
def checkAppInstalledCmds (tempName : String) : List AdbCommand :=
  [.rmFile uiDumpPath, .uiDump uiDumpPath, .pull uiDumpPath tempName]

/-- `AutomationService._check_app_installed` content test (`service.py`
lines 550-560): lowercase the pulled dump text and look for the exact
attribute substrings.  `none` models any exception inside the method
(failed pull / unreadable file / command timeout), which the method's own
handler converts to `False`. -/
def checkAppInstalled : Option String → Bool
  | none => false
  | some raw =>
    let content := lowerStr raw
    let hasPlay :=
      containsSub content "text=\"play\"" || containsSub content "content-desc=\"play\""
    let hasUninstall :=
      containsSub content "text=\"uninstall\"" || containsSub content "content-desc=\"uninstall\""
    hasPlay || hasUninstall

/-- `INSTALLATION_TIMEOUT` from `src/automation/constants.py` line 21. -/
def INSTALLATION_TIMEOUT : Nat := 300

/-- `check_interval` from `_wait_for_installation` (`service.py` line 500). -/
def checkIntervalSeconds : Nat := 5

/-- `total_checks = max_wait_time // check_interval` (`service.py` line 501). -/
def totalChecks : Nat := INSTALLATION_TIMEOUT / checkIntervalSeconds

/-- The polling loop of `AutomationService._wait_for_installation`
(`service.py` lines 503-519), with `fuel` iterations remaining and `i` the
current tick index; `dumps i` is the dump content seen by the `i`-th probe.
Per iteration: probe; on a match return `"INSTALL_SUCCESS"`; otherwise
sleep, then, when `i % 10 == 0`, evaluate `workflow.id` for the progress
log — `workflow` is unbound in that method (no local or module-level
binding), so the evaluation raises `NameError`, which the method's own
`except` handler turns into the return value `"INSTALL_ERROR"`.  A loop
that runs out of iterations returns `"INSTALL_TIMEOUT"`.  The second
component counts UI probes performed so far (ticks are `0`-based, so the
count after tick `i` is `i + 1`). -/
def waitLoop (dumps : Nat → Option String) : Nat → Nat → String × Nat
  | 0, i => ("INSTALL_TIMEOUT", i)
  | fuel + 1, i =>
    if checkAppInstalled (dumps i) then ("INSTALL_SUCCESS", i + 1)
    else if i % 10 == 0 then ("INSTALL_ERROR", i + 1)
    else waitLoop dumps fuel (i + 1)

/-- `AutomationService._wait_for_installation` (`service.py` lines 496-523). -/
def waitForInstallation (dumps : Nat → Option String) : String × Nat :=
  waitLoop dumps totalChecks 0

/-- Probe commands issued by `n` consecutive `_check_app_installed` calls. -/
def waitTraceCmds (n : Nat) (tempName : String) : List AdbCommand :=
  (List.replicate n (checkAppInstalledCmds tempName)).flatten

/-! ## Install pipeline (`_execute_install_workflow`, `service.py` lines 240-303) -/

/-- Per-run inputs of the install pipeline: the outcome of each adb
invocation and the dump content seen by each polling probe. -/
structure InstallEnv where
  devicesResult : CmdResult
  homeResult : CmdResult
  storeResult : CmdResult
  searchTapResult : CmdResult
  searchTextResult : CmdResult
  searchEnterResult : CmdResult
  clickResult : CmdResult
  dumps : Nat → Option String
  tempName : String

/-- `AutomationService._execute_install_workflow` (`service.py` lines
240-303): check emulator, reset to home, open the Play Store, drive the
store's UI search, tap the install button, then poll.  Returns the command
trace and either the raised exception or
`(installation_result, probes performed)`.  Note there is no
already-installed probe anywhere before the tap, and the wait step's
result string is returned inside a successful result (its internal
errors are swallowed by `_wait_for_installation`). -/
def executeInstallWorkflow (env : InstallEnv) :
    List AdbCommand × Except AutomationError (String × Nat) :=
  match checkEmulatorStatus env.devicesResult with
  | .error msg =>
    ([.devices], .error (.emulatorNotAvailable ("Emulator not available: " ++ msg)))
  | .ok _ =>
    match resetToHomeScreen env.homeResult with
    | (t1, .error e) => (.devices :: t1, .error e)
    | (t1, .ok _) =>
      match openGooglePlayStore env.storeResult with
      | (t2, .error e) => (.devices :: (t1 ++ t2), .error e)
      | (t2, .ok _) =>
        match searchLienquanMobile env.searchTapResult env.searchTextResult
            env.searchEnterResult with
        | (t3, .error e) => (.devices :: (t1 ++ t2 ++ t3), .error e)
        | (t3, .ok _) =>
          match clickInstallButton env.clickResult with
          | (t4, .error e) => (.devices :: (t1 ++ t2 ++ t3 ++ t4), .error e)
          | (t4, .ok _) =>
            let w := waitForInstallation env.dumps
            (.devices :: (t1 ++ t2 ++ t3 ++ t4 ++ waitTraceCmds w.2 env.tempName),
              .ok w)

/-! ## Screenshot pipeline (`_execute_screenshot_workflow`, lines 305-369) -/

/-- `AutomationService._check_lienquan_installed` (`service.py` lines
566-580): run `adb shell pm list packages` and test `'kgvn' in stdout`.
The exit code is never inspected; a timeout is caught and yields `False`. -/
def checkLienquanInstalled : CmdResult → Bool
  | .timedOut => false
  | .done _ out _ => containsSub out "kgvn"

/-- Launch component used by `_find_and_launch_lienquan` (line 587). -/
def lienquanActivity : String :=
  "com.garena.game.kgvn/com.garena.game.kgtw.SGameActivity"

/-- Per-run inputs of the screenshot pipeline. -/
structure ScreenshotEnv where
  pmResult : CmdResult
  homeResult : CmdResult
  launchResult : CmdResult
  screencapResult : CmdResult
  pullResult : CmdResult
  rmResult : CmdResult
  dbSaveOk : Bool
  screenshotPath : String

/-- `AutomationService._find_and_launch_lienquan` (`service.py` lines
582-596): direct component launch; exit code unchecked, timeout re-raised. -/
def findAndLaunchLienquan (r : CmdResult) : List AdbCommand × Except AutomationError Unit :=
  ([.amStart lienquanActivity],
    match r with
    | .timedOut => .error (.timeoutExpired "adb shell am start lienquan timed out")
    | .done _ _ _ => .ok ())

/-- `AutomationService._take_screenshot` (`service.py` lines 598-631):
screencap, pull, remove the remote file; exit codes unchecked; any
`TimeoutExpired` is caught and re-raised as `ScreenshotCaptureError`. -/
def takeScreenshot (sc pull rm : CmdResult) (path : String) :
    List AdbCommand × Except AutomationError String :=
  match sc with
  | .timedOut =>
    ([.screencap "/sdcard/screenshot.png"],
      .error (.screenshotCapture "Screenshot capture failed: screencap timed out"))
  | .done _ _ _ =>
    match pull with
    | .timedOut =>
      ([.screencap "/sdcard/screenshot.png", .pull "/sdcard/screenshot.png" path],
        .error (.screenshotCapture "Screenshot capture failed: pull timed out"))
    | .done _ _ _ =>
      match rm with
      | .timedOut =>
        ([.screencap "/sdcard/screenshot.png", .pull "/sdcard/screenshot.png" path,
            .rmFile "/sdcard/screenshot.png"],
          .error (.screenshotCapture "Screenshot capture failed: rm timed out"))
      | .done _ _ _ =>
        ([.screencap "/sdcard/screenshot.png", .pull "/sdcard/screenshot.png" path,
            .rmFile "/sdcard/screenshot.png"], .ok path)

/-- `AutomationService._save_screenshot_to_db` (`service.py` lines 633-662):
a database failure rolls back and re-raises. -/
def saveScreenshotToDb (ok : Bool) (path : String) : Except AutomationError String :=
  if ok then .ok path else .error (.dbError "Failed to save screenshot to DB")

/-- `AutomationService._execute_screenshot_workflow` (`service.py` lines
305-369): verify the package is installed via the package list, reset to
home, launch the app by component, settle, capture, persist.  When the
package check fails, `ValueError("Liên Quân Mobile is not installed")` is
raised before any further device command. -/
def executeScreenshotWorkflow (env : ScreenshotEnv) :
    List AdbCommand × Except AutomationError String :=
  if !checkLienquanInstalled env.pmResult then
    ([.pmListPackages], .error (.valueError "Liên Quân Mobile is not installed"))
  else
    match resetToHomeScreen env.homeResult with
    | (t1, .error e) => (.pmListPackages :: t1, .error e)
    | (t1, .ok _) =>
      match findAndLaunchLienquan env.launchResult with
      | (t2, .error e) => (.pmListPackages :: (t1 ++ t2), .error e)
      | (t2, .ok _) =>
        match takeScreenshot env.screencapResult env.pullResult env.rmResult
            env.screenshotPath with
        | (t3, .error e) => (.pmListPackages :: (t1 ++ t2 ++ t3), .error e)
        | (t3, .ok path) =>
          match saveScreenshotToDb env.dbSaveOk path with
          | .error e => (.pmListPackages :: (t1 ++ t2 ++ t3), .error e)
          | .ok p => (.pmListPackages :: (t1 ++ t2 ++ t3), .ok p)

/-! ## Workflow executor (`execute_workflow`, `service.py` lines 159-238) -/

/-- Result value of a successful pipeline, mirroring the result dicts
returned by the three `_execute_*_workflow` methods. -/
inductive WorkflowResult where
  | installDone (installationResult : String) (polls : Nat)
  | screenshotDone (path : String)
  | bothDone (installationResult : String) (polls : Nat) (path : String)
deriving DecidableEq, Repr

/-- All per-run inputs of `execute_workflow`, plus the clock ticks recorded
as `started_at` and `completed_at`. -/
structure WorkflowEnv where
  installEnv : InstallEnv
  screenshotEnv : ScreenshotEnv
  startTick : Nat
  endTick : Nat

/-- The `workflow_type` dispatch inside `execute_workflow`'s `try` block
(`service.py` lines 187-196), including the `ValueError` raised on an
unknown type.  `both` (`_execute_both_workflow`, lines 371-384) runs the
install pipeline to completion, then the screenshot pipeline. -/
def runPipeline (wfType : String) (env : WorkflowEnv) :
    List AdbCommand × Except AutomationError WorkflowResult :=
  if wfType == "install" then
    let (t, r) := executeInstallWorkflow env.installEnv
    (t, r.map fun p => .installDone p.1 p.2)
  else if wfType == "screenshot" then
    let (t, r) := executeScreenshotWorkflow env.screenshotEnv
    (t, r.map fun p => .screenshotDone p)
  else if wfType == "both" then
    match executeInstallWorkflow env.installEnv with
    | (t1, .error e) => (t1, .error e)
    | (t1, .ok (s, n)) =>
      match executeScreenshotWorkflow env.screenshotEnv with
      | (t2, .error e) => (t1 ++ t2, .error e)
      | (t2, .ok p) => (t1 ++ t2, .ok (.bothDone s n p))
  else ([], .error (.valueError ("Unknown workflow type: " ++ wfType)))

/-- What `execute_workflow` leaves behind: the persisted workflow row, the
device-command trace, and either the returned result or the propagated
exception. -/
structure ExecOutcome where
  workflow : AutomationWorkflow
  trace : List AdbCommand
  response : Except AutomationError WorkflowResult
deriving Repr

/-- `AutomationService.execute_workflow` (`service.py` lines 159-238).
If the persisted status is `running` and `force_restart` is not set,
`WorkflowAlreadyRunningError` is raised before any mutation.  Otherwise the
row is committed as `running` (with `started_at` set and `error_message`
cleared), the pipeline runs, and the terminal row — `completed`, or
`failed` with `error_message = str(e)` — is committed before the result is
returned or the exception re-raised. -/
def executeWorkflow (wf : AutomationWorkflow) (forceRestart : Bool)
    (env : WorkflowEnv) : ExecOutcome :=
  if wf.status = WorkflowStatus.running ∧ forceRestart = false then
    { workflow := wf, trace := [],
      response := .error (.workflowAlreadyRunning "Workflow is already running") }
  else
    let wfRun : AutomationWorkflow :=
      { wf with status := .running, startedAt := some env.startTick,
                errorMessage := none }
    match runPipeline wf.workflowType env with
    | (t, .ok res) =>
      { workflow := { wfRun with status := .completed, completedAt := some env.endTick },
        trace := t, response := .ok res }
    | (t, .error e) =>
      let wfFailed : AutomationWorkflow :=
        { wfRun with
            status := .failed
            errorMessage := some e.pyStr
            completedAt := some env.endTick }
      { workflow := wfFailed, trace := t, response := .error e }

/-! ## Workflow event logging (`_log_workflow_event`, lines 664-687) -/

/-- A `WorkflowLog` row (`src/models.py`). -/
structure WorkflowLogEntry where
  workflowId : Nat
  logLevel : String
  message : String
  stepName : String
  executionTimeMs : Option Nat
deriving DecidableEq, Repr

/-- The database state visible to `_log_workflow_event`: the workflow row
and the append-only log table. -/
structure DbState where
  workflow : AutomationWorkflow
  logs : List WorkflowLogEntry
deriving DecidableEq, Repr

/-- The `session.add` + `commit` pair inside `_log_workflow_event`; a failed
commit raises. -/
def dbCommitLog (commitOk : Bool) (db : DbState) (e : WorkflowLogEntry) :
    Except String DbState :=
  if commitOk then .ok { db with logs := db.logs ++ [e] }
  else .error "Database operation failed"

/-- `AutomationService._log_workflow_event` (`service.py` lines 664-687):
the commit is wrapped in `try/except`; on failure the error is logged to
the process logger and deliberately not re-raised ("Don't raise here to
avoid breaking workflow execution"), leaving the database state as it was. -/
def logWorkflowEvent (commitOk : Bool) (db : DbState) (e : WorkflowLogEntry) : DbState :=
  match dbCommitLog commitOk db e with
  | .ok db2 => db2
  | .error _ => db

/-! ## Legacy install script (`luong1_download.py`) -/

namespace Luong1

/-- `Luong1Download.check_app_installed` (`luong1_download.py` lines
104-163): the dump and pull return codes are checked here (unlike the
service variant); on success the pulled content is lowercased and probed
for the same four exact attribute substrings. -/
def l1CheckAppInstalled (dumpRc pullRc : Nat) (content : String) : Bool :=
  if dumpRc == 0 then
    if pullRc == 0 then
      let c := lowerStr content
      (containsSub c "text=\"play\"" || containsSub c "content-desc=\"play\"") ||
      (containsSub c "text=\"uninstall\"" || containsSub c "content-desc=\"uninstall\"")
    else false
  else false

/-- Commands issued by one `Luong1Download.check_app_installed` call: the
stale on-device dump is removed first, the dump regenerated, and — only
when the dump command exited 0 — pulled. -/
def l1CheckTrace (dumpRc : Nat) (temp : String) : List AdbCommand :=
  [.rmFile uiDumpPath, .uiDump uiDumpPath] ++
    (if dumpRc == 0 then [.pull uiDumpPath temp] else [])

/-- The deep link `open_lienquan_page` launches (`luong1_download.py`
line 174). -/
def lienquanDeepLink : String := "market://details?id=com.garena.game.kgvn"

/-- Result of `Luong1Download.open_lienquan_page`: the Python method
returns the string `"ALREADY_INSTALLED"`, `True`, or `False`. -/
inductive OpenPageResult where
  | alreadyInstalled
  | opened
  | failed
deriving DecidableEq, Repr

/-- `Luong1Download.open_lienquan_page` (`luong1_download.py` lines
165-196): launch the package-aware `market://` deep link; when it exits 0,
probe the UI — a play/uninstall match short-circuits to
`"ALREADY_INSTALLED"` before any install tap. -/
def openLienquanPage (pageRc dumpRc pullRc : Nat) (content temp : String) :
    List AdbCommand × OpenPageResult :=
  if pageRc == 0 then
    (.amStartView lienquanDeepLink :: l1CheckTrace dumpRc temp,
      if l1CheckAppInstalled dumpRc pullRc content then .alreadyInstalled else .opened)
  else ([.amStartView lienquanDeepLink], .failed)

/-- Result of `Luong1Download.click_install_button`: `"INSTALL_SUCCESS"`,
`True`, or `False`. -/
inductive ClickResult where
  | installSuccess
  | clicked
  | failed
deriving DecidableEq, Repr

/-- `Luong1Download.click_install_button` (`luong1_download.py` lines
198-243): tap (2117, 350); when the first tap exits 0, tap three more
times (return codes of the retries unchecked), then probe the UI. -/
def l1ClickInstallButton (clickRc dumpRc pullRc : Nat) (content temp : String) :
    List AdbCommand × ClickResult :=
  if clickRc == 0 then
    ([.tap 2117 350, .tap 2117 350, .tap 2117 350, .tap 2117 350] ++
        l1CheckTrace dumpRc temp,
      if l1CheckAppInstalled dumpRc pullRc content then .installSuccess else .clicked)
  else ([.tap 2117 350], .failed)

/-- `Luong1Download.check_environment` device parsing (`luong1_download.py`
lines 42-43): drop the header line, keep lines that are non-blank and
contain a tab, take the field before the tab. -/
def l1ParseDevices (out : String) : List (List Char) :=
  (((splitLines (trimChars out.data)).drop 1).filter
    (fun l => !(trimChars l).isEmpty && l.any (fun c => c == '\t'))).map
    (fun l => l.takeWhile (fun c => c != '\t'))

/-- `Luong1Download.check_environment` (`luong1_download.py` lines 23-57):
`adb version` must exit 0, `adb devices` must exit 0 and list at least one
device. -/
def l1CheckEnvironment (versionRc devicesRc : Nat) (devicesOut : String) : Bool :=
  if versionRc == 0 then
    if devicesRc == 0 then !(l1ParseDevices devicesOut).isEmpty else false
  else false

/-- Per-tick UI-probe inputs of `Luong1Download.wait_for_installation`:
dump return code, pull return code, pulled content. -/
structure L1WaitTick where
  dumpRc : Nat
  pullRc : Nat
  content : String

/-- The 60-iteration UI-probe loop of `Luong1Download.wait_for_installation`
(`luong1_download.py` lines 263-276), returning whether installation was
detected and the probe command trace. -/
def l1WaitLoop (ticks : Nat → L1WaitTick) (temp : String) :
    Nat → Nat → Bool × List AdbCommand
  | 0, _ => (false, [])
  | fuel + 1, i =>
    let tk := ticks i
    let tr := l1CheckTrace tk.dumpRc temp
    if l1CheckAppInstalled tk.dumpRc tk.pullRc tk.content then (true, tr)
    else
      let (b, t) := l1WaitLoop ticks temp fuel (i + 1)
      (b, tr ++ t)

/-- `Luong1Download.wait_for_installation` (`luong1_download.py` lines
245-280): an immediate `pm list packages` check (`'kgvn' in stdout`, only
when it exits 0), then up to 60 UI probes 5 seconds apart. -/
def l1WaitForInstallation (pmRc : Nat) (pmOut : String) (ticks : Nat → L1WaitTick)
    (temp : String) : Bool × List AdbCommand :=
  if pmRc == 0 && containsSub pmOut "kgvn" then (true, [.pmListPackages])
  else
    let (b, t) := l1WaitLoop ticks temp 60 0
    (b, .pmListPackages :: t)

/-- Per-run inputs of `Luong1Download.run_luong1_download`. -/
structure L1Env where
  versionRc : Nat
  devicesRc : Nat
  devicesOut : String
  homeRc : Nat
  storeRc : Nat
  pageRc : Nat
  pageDumpRc : Nat
  pagePullRc : Nat
  pageContent : String
  pageTemp : String
  clickRc : Nat
  clickDumpRc : Nat
  clickPullRc : Nat
  clickContent : String
  clickTemp : String
  pmRc : Nat
  pmOut : String
  waitTicks : Nat → L1WaitTick
  waitTemp : String

/-- `Luong1Download.run_luong1_download` (`luong1_download.py` lines
282-337): environment check, reset to home (exit code checked here), open
the Play Store, open the app's store page (short-circuiting on
`ALREADY_INSTALLED`), click install (short-circuiting on
`INSTALL_SUCCESS`), then wait for installation.  Returns overall success
and the device-command trace. -/
def runLuong1 (env : L1Env) : Bool × List AdbCommand :=
  let envTrace : List AdbCommand :=
    .version :: (if env.versionRc == 0 then [.devices] else [])
  if !l1CheckEnvironment env.versionRc env.devicesRc env.devicesOut then
    (false, envTrace)
  else
    let t0 := envTrace ++ [.keyevent 3]
    if env.homeRc != 0 then (false, t0)
    else
      let t1 := t0 ++ [.amStart "com.android.vending/.AssetBrowserActivity"]
      if env.storeRc != 0 then (false, t1)
      else
        match openLienquanPage env.pageRc env.pageDumpRc env.pagePullRc
            env.pageContent env.pageTemp with
        | (tp, .alreadyInstalled) => (true, t1 ++ tp)
        | (tp, .failed) => (false, t1 ++ tp)
        | (tp, .opened) =>
          match l1ClickInstallButton env.clickRc env.clickDumpRc env.clickPullRc
              env.clickContent env.clickTemp with
          | (tc, .installSuccess) => (true, t1 ++ tp ++ tc)
          | (tc, .failed) => (false, t1 ++ tp ++ tc)
          | (tc, .clicked) =>
            let (b, tw) := l1WaitForInstallation env.pmRc env.pmOut env.waitTicks
              env.waitTemp
            (b, t1 ++ tp ++ tc ++ tw)

end Luong1

/-! ## Helper predicates and concrete environments used by the theorems -/

/-- Is this command a `VIEW`-intent (deep link) launch? -/
def isViewIntent : AdbCommand → Bool
  | .amStartView _ => true
  | _ => false

/-- Is this command a text injection (`adb shell input text`)? -/
def isTextInjection : AdbCommand → Bool
  | .inputText _ => true
  | _ => false

/-- A completed adb invocation with exit code 0 and empty output. -/
def okCmd : CmdResult := .done 0 "" ""

/-- An `adb devices` invocation listing one emulator. -/
def devicesOk : CmdResult :=
  .done 0 "List of devices attached\nemulator-5554\tdevice" ""

/-- Install-pipeline inputs where every command succeeds and no UI probe
ever sees a play/uninstall affordance. -/
def envNoMatch : InstallEnv :=
  { devicesResult := devicesOk
    homeResult := okCmd
    storeResult := okCmd
    searchTapResult := okCmd
    searchTextResult := okCmd
    searchEnterResult := okCmd
    clickResult := okCmd
    dumps := fun _ => some "<hierarchy></hierarchy>"
    tempName := "ui_dump_check_1.xml" }

/-- Screenshot-pipeline inputs where every command succeeds and the target
package is present. -/
def ssEnvInstalled : ScreenshotEnv :=
  { pmResult := .done 0 "package:com.garena.game.kgvn" ""
    homeResult := okCmd
    launchResult := okCmd
    screencapResult := okCmd
    pullResult := okCmd
    rmResult := okCmd
    dbSaveOk := true
    screenshotPath := "screenshots/lienquan_workflow_1_1.png" }

/-- A freshly created install workflow row. -/
def wfInstall : AutomationWorkflow :=
  { id := 1, workflowType := "install", status := .pending
    startedAt := none, completedAt := none, errorMessage := none }

/-- Executor inputs for an install run where no probe ever matches. -/
def wenvNoMatch : WorkflowEnv :=
  { installEnv := envNoMatch, screenshotEnv := ssEnvInstalled
    startTick := 100, endTick := 200 }

/-! ## Shared lemmas about the polling loop and traces -/

/-- The wait loop only ever produces the three result strings of
`_wait_for_installation`. -/
theorem waitLoop_result_cases (dumps : Nat → Option String) :
    ∀ fuel i, (waitLoop dumps fuel i).1 = "INSTALL_TIMEOUT" ∨
      (waitLoop dumps fuel i).1 = "INSTALL_SUCCESS" ∨
      (waitLoop dumps fuel i).1 = "INSTALL_ERROR" := by
  intro fuel
  induction fuel with
  | zero => intro i; left; rfl
  | succ n ih =>
    intro i
    by_cases h : checkAppInstalled (dumps i) = true
    · right; left; simp [waitLoop, h]
    · rw [Bool.not_eq_true] at h
      by_cases h2 : i % 10 = 0
      · right; right; simp [waitLoop, h, h2]
      · have : (waitLoop dumps (n + 1) i) = waitLoop dumps n (i + 1) := by
          simp [waitLoop, h, h2]
        rw [this]; exact ih (i + 1)

/-- When the first probe of the wait loop does not match, the progress-log
branch runs on tick 0 (`0 % 10 == 0`), the unbound `workflow` reference
raises, and the handler returns `INSTALL_ERROR` after exactly one probe. -/
theorem waitForInstallation_first_miss (dumps : Nat → Option String)
    (h0 : checkAppInstalled (dumps 0) = false) :
    waitForInstallation dumps = ("INSTALL_ERROR", 1) := by
  have h60 : totalChecks = 59 + 1 := rfl
  rw [waitForInstallation, h60]
  simp [waitLoop, h0]

/-- A probe match at any tick the wait loop actually reaches ends polling
immediately with `INSTALL_SUCCESS`. -/
theorem waitLoop_match_ends (dumps : Nat → Option String) (fuel i : Nat)
    (h : checkAppInstalled (dumps i) = true) :
    waitLoop dumps (fuel + 1) i = ("INSTALL_SUCCESS", i + 1) := by
  simp [waitLoop, h]

/-- The probe commands issued during polling contain no `VIEW`-intent
launch and no text injection. -/
theorem waitTraceCmds_no_view (n : Nat) (temp : String) :
    ((waitTraceCmds n temp).all fun c => !isViewIntent c && !isTextInjection c) = true := by
  simp only [waitTraceCmds, List.all_eq_true]
  intro c hc
  rw [List.mem_flatten] at hc
  obtain ⟨l, hl, hcl⟩ := hc
  rw [List.eq_of_mem_replicate hl] at hcl
  simp only [checkAppInstalledCmds, List.mem_cons, List.mem_singleton] at hcl
  rcases hcl with h | h | h | h <;> first | (subst h; rfl) | exact absurd h (by simp)

/-- Evaluation of the install pipeline when every device command completes
(whatever the exit codes) and the emulator check finds a device: the trace
is the fixed UI-search-and-tap sequence followed by the polling probes, and
the result is whatever string `_wait_for_installation` returned. -/
theorem executeInstallWorkflow_all_ok (env : InstallEnv)
    (hDev : (checkEmulatorStatus env.devicesResult).isOk = true)
    (hHome : env.homeResult ≠ .timedOut)
    (hStore : env.storeResult ≠ .timedOut)
    (hTap : env.searchTapResult ≠ .timedOut)
    (hText : env.searchTextResult ≠ .timedOut)
    (hEnter : env.searchEnterResult ≠ .timedOut)
    (hClick : env.clickResult ≠ .timedOut) :
    executeInstallWorkflow env =
      (.devices :: ([.keyevent 3] ++ [.amStart "com.android.vending/.AssetBrowserActivity"] ++
          [.tap 1200 200, .inputText "lienquan", .keyevent 66] ++ [.tap 2117 350] ++
          waitTraceCmds (waitForInstallation env.dumps).2 env.tempName),
        .ok (waitForInstallation env.dumps)) := by
  obtain ⟨devs, hdevs⟩ : ∃ devs, checkEmulatorStatus env.devicesResult = .ok devs := by
    cases h : checkEmulatorStatus env.devicesResult
    · rw [h] at hDev; simp [Except.isOk, Except.toBool] at hDev
    · exact ⟨_, rfl⟩
  cases hh : env.homeResult with
  | timedOut => exact absurd hh hHome
  | done a1 a2 a3 =>
  cases hs : env.storeResult with
  | timedOut => exact absurd hs hStore
  | done b1 b2 b3 =>
  cases ht1 : env.searchTapResult with
  | timedOut => exact absurd ht1 hTap
  | done c1 c2 c3 =>
  cases ht2 : env.searchTextResult with
  | timedOut => exact absurd ht2 hText
  | done d1 d2 d3 =>
  cases ht3 : env.searchEnterResult with
  | timedOut => exact absurd ht3 hEnter
  | done e1 e2 e3 =>
  cases hc : env.clickResult with
  | timedOut => exact absurd hc hClick
  | done f1 f2 f3 =>
  simp [executeInstallWorkflow, hdevs, hh, hs, ht1, ht2, ht3, hc,
    resetToHomeScreen, openGooglePlayStore, searchLienquanMobile, clickInstallButton]

/-! ## Claim theorems -/

/-- C1, counterexample.  An install run whose UI probe never reports a
match does not end in a TimedOut state: the executor marks the run
`completed` (the wait helper returned the result string `INSTALL_ERROR`,
and budget exhaustion would have produced the string `INSTALL_TIMEOUT`,
also inside a successful result). -/
theorem C1_counterexample :
    (executeWorkflow wfInstall false wenvNoMatch).workflow.status =
      WorkflowStatus.completed ∧
    (executeWorkflow wfInstall false wenvNoMatch).response =
      Except.ok (.installDone "INSTALL_ERROR" 1) := by
  constructor <;> rfl

/-- C1, amended.  For every install run that passes the mutual-exclusion
gate, whose device commands all complete, and whose UI probe never
matches, the run ends with persisted status `completed` — `WorkflowStatus`
has no timed-out member at all (its five members are enumerated below), so
exhausting the polling budget cannot be recorded as a distinct terminal
state; the wait helper instead swallows everything into a result string
(`INSTALL_ERROR` in practice, because its progress log dereferences the
unbound name `workflow` on the first unmatched tick; `INSTALL_TIMEOUT`
only from a hypothetical tick past the first log point, as the last
conjunct shows). -/
theorem C1_no_timed_out_state (wf : AutomationWorkflow) (env : WorkflowEnv)
    (hType : wf.workflowType = "install")
    (hNotRun : wf.status ≠ WorkflowStatus.running)
    (hDev : (checkEmulatorStatus env.installEnv.devicesResult).isOk = true)
    (hHome : env.installEnv.homeResult ≠ .timedOut)
    (hStore : env.installEnv.storeResult ≠ .timedOut)
    (hTap : env.installEnv.searchTapResult ≠ .timedOut)
    (hText : env.installEnv.searchTextResult ≠ .timedOut)
    (hEnter : env.installEnv.searchEnterResult ≠ .timedOut)
    (hClick : env.installEnv.clickResult ≠ .timedOut)
    (hNoMatch : ∀ k, checkAppInstalled (env.installEnv.dumps k) = false) :
    (executeWorkflow wf false env).workflow.status = WorkflowStatus.completed ∧
    (executeWorkflow wf false env).response =
      Except.ok (.installDone "INSTALL_ERROR" 1) ∧
    (∀ s : WorkflowStatus, s = .pending ∨ s = .running ∨ s = .completed ∨
      s = .failed ∨ s = .cancelled) ∧
    waitLoop env.installEnv.dumps (totalChecks - 51) 51 = ("INSTALL_TIMEOUT", 60) := by
  have hwait : waitForInstallation env.installEnv.dumps = ("INSTALL_ERROR", 1) :=
    waitForInstallation_first_miss _ (hNoMatch 0)
  have hpipe := executeInstallWorkflow_all_ok env.installEnv hDev hHome hStore hTap
    hText hEnter hClick
  have hgate : ¬(wf.status = WorkflowStatus.running ∧ false = false) := by
    intro h; exact hNotRun h.1
  refine ⟨?_, ?_, ?_, ?_⟩
  · rw [executeWorkflow, if_neg hgate]
    simp [runPipeline, hType, hpipe, Except.map]
  · rw [executeWorkflow, if_neg hgate]
    simp [runPipeline, hType, hpipe, hwait, Except.map]
  · intro s; cases s <;> simp
  · have h9 : totalChecks - 51 = 9 := rfl
    rw [h9]
    have step : ∀ j fuel, (∀ k, checkAppInstalled (env.installEnv.dumps k) = false) →
        j % 10 ≠ 0 → j + fuel = 60 → (∀ m, m < fuel → (j + m) % 10 ≠ 0) →
        waitLoop env.installEnv.dumps fuel j = ("INSTALL_TIMEOUT", 60) := by
      intro j fuel
      induction fuel generalizing j with
      | zero => intro _ _ hj _; simpa [waitLoop] using hj
      | succ n ih =>
        intro hnm hj hsum hmod
        rw [show waitLoop env.installEnv.dumps (n + 1) j =
            waitLoop env.installEnv.dumps n (j + 1) by
          simp [waitLoop, hnm j, hj]]
        rcases Nat.eq_zero_or_pos n with rfl | hn
        · have : j + 1 = 60 := by omega
          simp [waitLoop, this]
        · exact ih (j + 1) hnm (by have := hmod 1 (by omega); omega) (by omega)
            (fun m hm => by have := hmod (m + 1) (by omega); omega)
    exact step 51 9 hNoMatch (by omega) (by omega) (by omega)

/-- C1 witness: the amended theorem applied to the concrete no-match run. -/
theorem C1_no_timed_out_state_witness :
    (executeWorkflow wfInstall false wenvNoMatch).workflow.status =
      WorkflowStatus.completed ∧
    (executeWorkflow wfInstall false wenvNoMatch).response =
      Except.ok (.installDone "INSTALL_ERROR" 1) ∧
    (∀ s : WorkflowStatus, s = .pending ∨ s = .running ∨ s = .completed ∨
      s = .failed ∨ s = .cancelled) ∧
    waitLoop wenvNoMatch.installEnv.dumps (totalChecks - 51) 51 =
      ("INSTALL_TIMEOUT", 60) :=
  C1_no_timed_out_state wfInstall wenvNoMatch rfl (by decide) (by decide)
    (by decide) (by decide) (by decide) (by decide) (by decide) (by decide)
    (fun _ => rfl)

/-- Scenario A probe inputs: no affordance on poll tick 1, a
`text="Play"` match on poll tick 2. -/
def dumpsScenarioA : Nat → Option String := fun k =>
  if k == 0 then some "<hierarchy></hierarchy>" else some "<node text=\"Play\"/>"

/-- Executor inputs for the Scenario A install run. -/
def wenvScenarioA : WorkflowEnv :=
  { installEnv := { envNoMatch with dumps := dumpsScenarioA }
    screenshotEnv := ssEnvInstalled
    startTick := 100, endTick := 200 }

/-- C2, code behaviour at the claim's scenario.  The tick-2 dump does
match the probe (first conjunct), but the code never reaches tick 2: on
tick 1 the progress-log branch (`i % 10 == 0` at `i = 0`) dereferences the
unbound name `workflow`, the resulting `NameError` is swallowed by
`_wait_for_installation`'s handler, and the run ends `completed` with
installation result `INSTALL_ERROR` after exactly 1 poll — not `completed`
with `INSTALL_SUCCESS` after 2 polls as the claim (and the spec's stated
intent) requires. -/
theorem C2_scenarioA_code_behavior :
    checkAppInstalled (dumpsScenarioA 1) = true ∧
    waitForInstallation dumpsScenarioA = ("INSTALL_ERROR", 1) ∧
    (executeWorkflow wfInstall false wenvScenarioA).response =
      Except.ok (.installDone "INSTALL_ERROR" 1) ∧
    (executeWorkflow wfInstall false wenvScenarioA).workflow.status =
      WorkflowStatus.completed := by
  refine ⟨by decide, by decide, rfl, rfl⟩

/-- C3.  When the persisted status is `running`, a second execution request
without `force_restart` raises `WorkflowAlreadyRunningError` before any
mutation or device command: the persisted row (status, timestamps, error
message) is returned exactly as it was and the trace is empty.  With
`force_restart` set the mutual-exclusion check is bypassed and the run
executes to a terminal state. -/
theorem C3_mutual_exclusion (wf : AutomationWorkflow) (env : WorkflowEnv)
    (hRun : wf.status = WorkflowStatus.running) :
    (executeWorkflow wf false env).workflow = wf ∧
    (executeWorkflow wf false env).trace = [] ∧
    (executeWorkflow wf false env).response =
      Except.error (.workflowAlreadyRunning "Workflow is already running") ∧
    ((executeWorkflow wf true env).workflow.status = WorkflowStatus.completed ∨
      (executeWorkflow wf true env).workflow.status = WorkflowStatus.failed) := by
  have hpos : wf.status = WorkflowStatus.running ∧ false = false := ⟨hRun, rfl⟩
  have hneg : ¬(wf.status = WorkflowStatus.running ∧ true = false) := by
    intro h; exact Bool.true_eq_false_eq_False h.2
  refine ⟨?_, ?_, ?_, ?_⟩
  · rw [executeWorkflow, if_pos hpos]
  · rw [executeWorkflow, if_pos hpos]
  · rw [executeWorkflow, if_pos hpos]
  · rw [executeWorkflow, if_neg hneg]
    rcases h : runPipeline wf.workflowType env with ⟨t, r⟩
    cases r
    · right; rfl
    · left; rfl

/-- C3 witness: the theorem applied to a running install workflow. -/
theorem C3_mutual_exclusion_witness :
    (executeWorkflow { wfInstall with status := .running } false wenvNoMatch).workflow =
      { wfInstall with status := .running } ∧
    (executeWorkflow { wfInstall with status := .running } false wenvNoMatch).trace = [] ∧
    (executeWorkflow { wfInstall with status := .running } false wenvNoMatch).response =
      Except.error (.workflowAlreadyRunning "Workflow is already running") ∧
    ((executeWorkflow { wfInstall with status := .running } true wenvNoMatch).workflow.status =
        WorkflowStatus.completed ∨
      (executeWorkflow { wfInstall with status := .running } true wenvNoMatch).workflow.status =
        WorkflowStatus.failed) :=
  C3_mutual_exclusion { wfInstall with status := .running } wenvNoMatch rfl

/-- C4.  When the mutual-exclusion gate passes and the pipeline raises,
`execute_workflow` commits the row with status `failed`, `error_message`
set to `str(e)` and a completion timestamp, and only then re-raises the
same exception — the returned persisted state is terminal, never a
dangling `running` row. -/
theorem C4_failure_persisted (wf : AutomationWorkflow) (forceRestart : Bool)
    (env : WorkflowEnv) (e : AutomationError)
    (hGate : ¬(wf.status = WorkflowStatus.running ∧ forceRestart = false))
    (hPipe : (runPipeline wf.workflowType env).2 = Except.error e) :
    (executeWorkflow wf forceRestart env).workflow.status = WorkflowStatus.failed ∧
    (executeWorkflow wf forceRestart env).workflow.errorMessage = some e.pyStr ∧
    (executeWorkflow wf forceRestart env).workflow.completedAt = some env.endTick ∧
    (executeWorkflow wf forceRestart env).response = Except.error e := by
  rcases h : runPipeline wf.workflowType env with ⟨t, r⟩
  rw [h] at hPipe
  simp only at hPipe
  subst hPipe
  refine ⟨?_, ?_, ?_, ?_⟩ <;> rw [executeWorkflow, if_neg hGate, h]

/-- C4 witness: an install run whose emulator check times out ends with
a persisted `failed` row carrying the formatted error message. -/
theorem C4_failure_persisted_witness :
    (executeWorkflow wfInstall false
        { wenvNoMatch with installEnv := { envNoMatch with devicesResult := .timedOut } }).workflow.status =
      WorkflowStatus.failed ∧
    (executeWorkflow wfInstall false
        { wenvNoMatch with installEnv := { envNoMatch with devicesResult := .timedOut } }).workflow.errorMessage =
      some (AutomationError.pyStr
        (.emulatorNotAvailable "Emulator not available: ADB command timeout")) ∧
    (executeWorkflow wfInstall false
        { wenvNoMatch with installEnv := { envNoMatch with devicesResult := .timedOut } }).workflow.completedAt =
      some 200 ∧
    (executeWorkflow wfInstall false
        { wenvNoMatch with installEnv := { envNoMatch with devicesResult := .timedOut } }).response =
      Except.error (.emulatorNotAvailable "Emulator not available: ADB command timeout") :=
  C4_failure_persisted wfInstall false
    { wenvNoMatch with installEnv := { envNoMatch with devicesResult := .timedOut } }
    (.emulatorNotAvailable "Emulator not available: ADB command timeout")
    (by decide) rfl

/-- Install-pipeline inputs where, already at the first probe after the
store page opens, the UI shows `content-desc="Uninstall"`. -/
def envAlreadyInstalled : InstallEnv :=
  { envNoMatch with dumps := fun _ => some "<node content-desc=\"Uninstall\"/>" }

/-- C5, counterexample.  In the service executor's install pipeline there
is no already-installed short-circuit: even when the very first UI probe
would show an uninstall affordance, the install tap at (2117, 350) is
still executed, and the run's result is `INSTALL_SUCCESS` — never
`ALREADY_INSTALLED`. -/
theorem C5_counterexample :
    AdbCommand.tap 2117 350 ∈ (executeInstallWorkflow envAlreadyInstalled).1 ∧
    (executeInstallWorkflow envAlreadyInstalled).2 =
      Except.ok ("INSTALL_SUCCESS", 1) := by
  constructor
  · decide
  · rfl

/-- C5, amended.  The service executor's install pipeline never produces
the result `ALREADY_INSTALLED` (first conjunct).  The short-circuit
described by the claim exists only in the legacy script
`Luong1Download`: when the store page opens and the UI probe already
shows a play/uninstall affordance, `open_lienquan_page` returns
`ALREADY_INSTALLED` (second conjunct) and the overall legacy run then
finishes successfully without ever issuing an install tap (third
conjunct). -/
theorem C5_already_installed_amended :
    (∀ (env : InstallEnv) (r : String) (n : Nat),
      (executeInstallWorkflow env).2 = Except.ok (r, n) → r ≠ "ALREADY_INSTALLED") ∧
    (∀ (dumpRc pullRc : Nat) (content temp : String),
      Luong1.l1CheckAppInstalled dumpRc pullRc content = true →
      Luong1.openLienquanPage 0 dumpRc pullRc content temp =
        (.amStartView Luong1.lienquanDeepLink :: Luong1.l1CheckTrace dumpRc temp,
          Luong1.OpenPageResult.alreadyInstalled)) ∧
    (∀ env : Luong1.L1Env,
      Luong1.l1CheckEnvironment env.versionRc env.devicesRc env.devicesOut = true →
      env.homeRc = 0 → env.storeRc = 0 → env.pageRc = 0 →
      Luong1.l1CheckAppInstalled env.pageDumpRc env.pagePullRc env.pageContent = true →
      (Luong1.runLuong1 env).1 = true ∧
      ∀ x y : Nat, AdbCommand.tap x y ∉ (Luong1.runLuong1 env).2) := by
  refine ⟨?_, ?_, ?_⟩
  · intro env r n h
    unfold executeInstallWorkflow at h
    cases hce : checkEmulatorStatus env.devicesResult <;> rw [hce] at h
    · simp at h
    · cases hh : env.homeResult <;> cases hs : env.storeResult <;>
        cases h1 : env.searchTapResult <;> cases h2 : env.searchTextResult <;>
          cases h3 : env.searchEnterResult <;> cases hc : env.clickResult <;>
            simp only [resetToHomeScreen, openGooglePlayStore, searchLienquanMobile,
              clickInstallButton, hh, hs, h1, h2, h3, hc] at h <;>
              first
                | (exfalso; simp at h; done)
                | (have h' : waitForInstallation env.dumps = (r, n) := by simpa using h
                   rcases waitLoop_result_cases env.dumps totalChecks 0 with hw | hw | hw <;>
                     rw [waitForInstallation] at h' <;> rw [h'] at hw <;> simp at hw <;>
                       subst hw <;> decide)
  · intro dumpRc pullRc content temp h
    simp [Luong1.openLienquanPage, h]
  · intro env henv hhome hstore hpage hprobe
    have hver : env.versionRc = 0 := by
      by_contra hv
      simp [Luong1.l1CheckEnvironment, hv] at henv
    rw [hver] at henv
    have hrun : Luong1.runLuong1 env =
        (true, (.version :: [.devices]) ++ [.keyevent 3] ++
          [.amStart "com.android.vending/.AssetBrowserActivity"] ++
          (.amStartView Luong1.lienquanDeepLink ::
            Luong1.l1CheckTrace env.pageDumpRc env.pageTemp)) := by
      simp [Luong1.runLuong1, henv, hver, hhome, hstore,
        Luong1.openLienquanPage, hpage, hprobe]
    constructor
    · rw [hrun]
    · intro x y
      rw [hrun]
      simp [Luong1.l1CheckTrace]

/-- The polling probes never launch a `VIEW` intent. -/
theorem waitTraceCmds_all_not_view (n : Nat) (temp : String) :
    ((waitTraceCmds n temp).all fun c => !isViewIntent c) = true := by
  rw [List.all_eq_true]
  intro c hc
  have h := List.all_eq_true.mp (waitTraceCmds_no_view n temp) c hc
  simp only [Bool.and_eq_true] at h
  exact h.1

/-- The polling probes never inject text. -/
theorem waitTraceCmds_all_not_text (n : Nat) (temp : String) :
    ((waitTraceCmds n temp).all fun c => !isTextInjection c) = true := by
  rw [List.all_eq_true]
  intro c hc
  have h := List.all_eq_true.mp (waitTraceCmds_no_view n temp) c hc
  simp only [Bool.and_eq_true] at h
  exact h.2

/-- C6, counterexample.  On a fully successful install run the service
pipeline's trace contains the UI-search interactions — the search-box tap
at (1200, 200) and the typed query "lienquan" — and no `VIEW`-intent deep
link at all: the store page is reached by UI search, not by a
package-aware deep link. -/
theorem C6_counterexample :
    AdbCommand.tap 1200 200 ∈ (executeInstallWorkflow envNoMatch).1 ∧
    AdbCommand.inputText "lienquan" ∈ (executeInstallWorkflow envNoMatch).1 ∧
    ((executeInstallWorkflow envNoMatch).1.all fun c => !isViewIntent c) = true := by
  refine ⟨by decide, by decide, by decide⟩

/-- C6, amended.  The service install pipeline resolves the store page by
driving the store's UI search — when its three injection commands
complete, the search step's trace is exactly tap-search-box, type
"lienquan", press enter — and no run of the pipeline ever issues a
`VIEW`-intent launch.  The package-aware deep link
`market://details?id=com.garena.game.kgvn` is used only by the legacy
script's `open_lienquan_page`, whose trace starts with that deep link and
contains no text injection. -/
theorem C6_deep_link_amended :
    (∀ a1 a2 a3 b1 b2 b3 c1 c2 c3,
      searchLienquanMobile (.done a1 a2 a3) (.done b1 b2 b3) (.done c1 c2 c3) =
        ([.tap 1200 200, .inputText "lienquan", .keyevent 66], .ok ())) ∧
    (∀ r1 r2 r3 : CmdResult,
      ((searchLienquanMobile r1 r2 r3).1.all fun c => !isViewIntent c) = true) ∧
    (∀ env : InstallEnv,
      ((executeInstallWorkflow env).1.all fun c => !isViewIntent c) = true) ∧
    (∀ (pageRc dumpRc pullRc : Nat) (content temp : String),
      (Luong1.openLienquanPage pageRc dumpRc pullRc content temp).1.head? =
        some (.amStartView Luong1.lienquanDeepLink) ∧
      ((Luong1.openLienquanPage pageRc dumpRc pullRc content temp).1.all
        fun c => !isTextInjection c) = true) := by
  refine ⟨?_, ?_, ?_, ?_⟩
  · intro a1 a2 a3 b1 b2 b3 c1 c2 c3; rfl
  · intro r1 r2 r3
    cases r1 <;> cases r2 <;> cases r3 <;> rfl
  · intro env
    unfold executeInstallWorkflow
    cases hce : checkEmulatorStatus env.devicesResult
    · rfl
    · cases hh : env.homeResult <;> cases hs : env.storeResult <;>
        cases h1 : env.searchTapResult <;> cases h2 : env.searchTextResult <;>
          cases h3 : env.searchEnterResult <;> cases hc : env.clickResult <;>
            simp [resetToHomeScreen, openGooglePlayStore, searchLienquanMobile,
              clickInstallButton, isViewIntent] <;>
            (intro x hx
             have hv := List.all_eq_true.mp
               (waitTraceCmds_all_not_view (waitForInstallation env.dumps).2
                 env.tempName) x hx
             simpa [isViewIntent] using hv)
  · intro pageRc dumpRc pullRc content temp
    unfold Luong1.openLienquanPage
    constructor
    · split <;> rfl
    · split <;> simp [Luong1.l1CheckTrace, isTextInjection]

/-- The four exact attribute substrings whose presence (case-insensitively)
signals installation. -/
def installMarkers : List String :=
  ["text=\"play\"", "content-desc=\"play\"",
   "text=\"uninstall\"", "content-desc=\"uninstall\""]

/-- C7.  (1) A detection call returns `true` iff the dump was obtained and
its text, lowercased, contains at least one of the four exact attribute
substrings; (2) each call's command sequence removes the stale on-device
dump before regenerating and pulling a fresh one; (3) whenever a probe
matches at a tick the polling loop reaches, polling ends immediately with
`INSTALL_SUCCESS` after that probe. -/
theorem C7_probe_detection :
    (∀ dump : Option String,
      checkAppInstalled dump = true ↔
        ∃ c, dump = some c ∧
          (installMarkers.any fun p => containsSub (lowerStr c) p) = true) ∧
    (∀ temp : String,
      checkAppInstalledCmds temp =
        [.rmFile uiDumpPath, .uiDump uiDumpPath, .pull uiDumpPath temp]) ∧
    (∀ (dumps : Nat → Option String) (fuel i : Nat),
      checkAppInstalled (dumps i) = true →
      waitLoop dumps (fuel + 1) i = ("INSTALL_SUCCESS", i + 1)) := by
  refine ⟨?_, fun _ => rfl, fun dumps fuel i h => waitLoop_match_ends dumps fuel i h⟩
  intro dump
  cases dump with
  | none => simp [checkAppInstalled]
  | some c =>
    simp only [checkAppInstalled, installMarkers, List.any_cons, List.any_nil,
      Bool.or_eq_true, Option.some.injEq, exists_eq_left']
    constructor
    · rintro ((h | h) | (h | h)) <;> tauto
    · rintro (h | h | h | h | h) <;> tauto

/-- C7 witness: a dump showing `content-desc="Uninstall"` is detected, and
a loop whose tick-5 probe matches (reached with fuel remaining) stops at
that tick with success. -/
theorem C7_probe_detection_witness :
    checkAppInstalled (some "<node content-desc=\"Uninstall\"/>") = true ∧
    waitLoop (fun _ => some "<node text=\"PLAY\"/>") 55 5 =
      ("INSTALL_SUCCESS", 6) :=
  ⟨(C7_probe_detection.1 (some "<node content-desc=\"Uninstall\"/>")).mpr
      ⟨"<node content-desc=\"Uninstall\"/>", rfl, by decide⟩,
    C7_probe_detection.2.2 (fun _ => some "<node text=\"PLAY\"/>") 54 5 (by decide)⟩

/-- C8.  A screenshot run requested while the target package is absent
from the `pm list packages` output fails before any screen interaction:
the only device command issued is the package listing, the raised error is
`ValueError("Liên Quân Mobile is not installed")`, and the persisted row
is `failed` with exactly that message. -/
theorem C8_screenshot_requires_install (wf : AutomationWorkflow)
    (forceRestart : Bool) (env : WorkflowEnv)
    (hType : wf.workflowType = "screenshot")
    (hGate : ¬(wf.status = WorkflowStatus.running ∧ forceRestart = false))
    (hAbsent : checkLienquanInstalled env.screenshotEnv.pmResult = false) :
    (executeWorkflow wf forceRestart env).workflow.status = WorkflowStatus.failed ∧
    (executeWorkflow wf forceRestart env).workflow.errorMessage =
      some "Liên Quân Mobile is not installed" ∧
    (executeWorkflow wf forceRestart env).trace = [.pmListPackages] ∧
    (executeWorkflow wf forceRestart env).response =
      Except.error (.valueError "Liên Quân Mobile is not installed") := by
  have hpipe : runPipeline wf.workflowType env =
      ([.pmListPackages],
        .error (.valueError "Liên Quân Mobile is not installed")) := by
    rw [hType]
    simp [runPipeline, executeScreenshotWorkflow, hAbsent, Except.map]
  refine ⟨?_, ?_, ?_, ?_⟩ <;> rw [executeWorkflow, if_neg hGate, hpipe] <;> rfl

/-- C8 witness: a pending screenshot workflow against a device whose
package list lacks the `kgvn` package. -/
theorem C8_screenshot_requires_install_witness :
    (executeWorkflow { wfInstall with workflowType := "screenshot" } false
        { wenvNoMatch with screenshotEnv :=
            { ssEnvInstalled with pmResult := .done 0 "package:com.android.vending" "" } }).workflow.status =
      WorkflowStatus.failed ∧
    (executeWorkflow { wfInstall with workflowType := "screenshot" } false
        { wenvNoMatch with screenshotEnv :=
            { ssEnvInstalled with pmResult := .done 0 "package:com.android.vending" "" } }).workflow.errorMessage =
      some "Liên Quân Mobile is not installed" ∧
    (executeWorkflow { wfInstall with workflowType := "screenshot" } false
        { wenvNoMatch with screenshotEnv :=
            { ssEnvInstalled with pmResult := .done 0 "package:com.android.vending" "" } }).trace =
      [.pmListPackages] ∧
    (executeWorkflow { wfInstall with workflowType := "screenshot" } false
        { wenvNoMatch with screenshotEnv :=
            { ssEnvInstalled with pmResult := .done 0 "package:com.android.vending" "" } }).response =
      Except.error (.valueError "Liên Quân Mobile is not installed") :=
  C8_screenshot_requires_install { wfInstall with workflowType := "screenshot" } false
    { wenvNoMatch with screenshotEnv :=
        { ssEnvInstalled with pmResult := .done 0 "package:com.android.vending" "" } }
    rfl (by decide) (by decide)

/-- C9, counterexample.  An input-injection command that completes with a
non-zero exit code and diagnostic stderr raises nothing at all: the claim
that every non-zero exit signals a CommandFailed-style error carrying the
exit code and stderr is false for both cited helpers. -/
theorem C9_counterexample :
    (resetToHomeScreen (.done 1 "" "Permission denied")).2 = Except.ok () ∧
    (clickInstallButton (.done 127 "" "input: not found")).2 = Except.ok () :=
  ⟨rfl, rfl⟩

/-- C9, amended.  Each injection helper issues its command exactly once
(no automatic retry); a completed invocation is accepted whatever its exit
code — the exit code and stderr are discarded, and no error is signalled —
while only a timeout raises, and the raised error is re-raised to the
pipeline after logging. -/
theorem C9_injection_errors_amended :
    (∀ ec out err, resetToHomeScreen (.done ec out err) = ([.keyevent 3], .ok ())) ∧
    resetToHomeScreen .timedOut =
      ([.keyevent 3],
        .error (.timeoutExpired "adb shell input keyevent 3 timed out")) ∧
    (∀ ec out err, clickInstallButton (.done ec out err) = ([.tap 2117 350], .ok ())) ∧
    clickInstallButton .timedOut =
      ([.tap 2117 350],
        .error (.timeoutExpired "adb shell input tap 2117 350 timed out")) :=
  ⟨fun _ _ _ => rfl, rfl, fun _ _ _ => rfl, rfl⟩

/-- C10.  `_log_workflow_event` can never fail a run or alter it: whether
or not the log commit succeeds, the helper returns normally (it is a total
function into `DbState`, mirroring the swallowed exception) and the
workflow row is untouched — the only possible effects are appending the
entry or leaving the state exactly as it was. -/
theorem C10_logging_never_alters_run :
    ∀ (commitOk : Bool) (db : DbState) (e : WorkflowLogEntry),
      (logWorkflowEvent commitOk db e).workflow = db.workflow ∧
      (logWorkflowEvent commitOk db e = { db with logs := db.logs ++ [e] } ∨
        logWorkflowEvent commitOk db e = db) := by
  intro commitOk db e
  cases commitOk <;> simp [logWorkflowEvent, dbCommitLog]

/-- Legacy-script inputs: healthy environment, store page opens, and the
first UI probe after the page loads already shows the uninstall
affordance. -/
def l1EnvAlready : Luong1.L1Env :=
  { versionRc := 0
    devicesRc := 0
    devicesOut := "List of devices attached\nemulator-5554\tdevice"
    homeRc := 0
    storeRc := 0
    pageRc := 0
    pageDumpRc := 0
    pagePullRc := 0
    pageContent := "<node content-desc=\"Uninstall\"/>"
    pageTemp := "ui_dump_fresh_emulator-5554.xml"
    clickRc := 0
    clickDumpRc := 0
    clickPullRc := 0
    clickContent := ""
    clickTemp := "ui_dump_fresh_emulator-5554.xml"
    pmRc := 0
    pmOut := ""
    waitTicks := fun _ => { dumpRc := 0, pullRc := 0, content := "" }
    waitTemp := "ui_dump_fresh_emulator-5554.xml" }

/-- C5 witness: the amended theorem applied at concrete inputs — the
service pipeline's successful result string is not `ALREADY_INSTALLED`,
the legacy page-open short-circuits, and the legacy run succeeds without
any tap. -/
theorem C5_already_installed_amended_witness :
    "INSTALL_SUCCESS" ≠ "ALREADY_INSTALLED" ∧
    Luong1.openLienquanPage 0 0 0 "<node content-desc=\"Uninstall\"/>" "t.xml" =
      (.amStartView Luong1.lienquanDeepLink :: Luong1.l1CheckTrace 0 "t.xml",
        Luong1.OpenPageResult.alreadyInstalled) ∧
    (Luong1.runLuong1 l1EnvAlready).1 = true ∧
    AdbCommand.tap 2117 350 ∉ (Luong1.runLuong1 l1EnvAlready).2 :=
  ⟨C5_already_installed_amended.1 envAlreadyInstalled "INSTALL_SUCCESS" 1 rfl,
    C5_already_installed_amended.2.1 0 0 "<node content-desc=\"Uninstall\"/>" "t.xml"
      (by decide),
    (C5_already_installed_amended.2.2 l1EnvAlready (by decide) rfl rfl rfl
      (by decide)).1,
    (C5_already_installed_amended.2.2 l1EnvAlready (by decide) rfl rfl rfl
      (by decide)).2 2117 350⟩
